import Mathlib

/-!
Verification development for the FailStateSystem backend: a shallow
embedding of the trust-gated ingestion and moderation pipeline
(trust/abuse ledger, rate limiter, pre-ingestion gate, verification
worker) together with theorems about its invariants and behaviour.

Each definition is translated from the corresponding Python source file
(src/app/trust_system.py, src/app/rate_limiter.py,
src/app/pre_ingestion_filter.py, src/app/verification_worker.py).
Database tables are modelled as explicit lists passed in as arguments,
timestamps as integers (seconds), and external collaborators (classifier,
mailer, reward ledger) as environment records; effect-producing calls are
accumulated in explicit effect records.  Database functions invoked via
RPC whose bodies are not part of the source tree are modelled from the
specification and marked as such in their doc comments.
-/

namespace FailState

/-! ## Trust and abuse ledger (src/app/trust_system.py) -/

/-- Modelled from the spec: the database function update_trust_score
(invoked by TrustSystemService.update_trust_score via supabase.rpc) is not
part of the source tree; the spec describes it as an atomic clamp-add
keeping the score in the interval from 0 to 100. -/
def dbUpdateTrustScore (score : Int) (delta : Int) : Int :=
  max 0 (min 100 (score + delta))

/-- Python-side score returned by update_trust_score: the code runs
new_score = result.data if result.data else 100, so a falsy RPC result
(0 or missing) is replaced by the default 100. -/
def pyReturnedScore (rpcResult : Option Int) : Int :=
  match rpcResult with
  | none => 100
  | some v => if v = 0 then 100 else v

/-- One update_trust_score call: the stored score moves by the clamp-add
and the caller receives the python-side view of the RPC result. -/
def updateTrustScore (stored : Int) (delta : Int) : Int × Int :=
  let newStored := dbUpdateTrustScore stored delta
  (newStored, pyReturnedScore (some newStored))

/-- Stored trust score after a sequence of update_trust_score calls. -/
def applyTrustDeltas (stored : Int) : List Int → Int
  | [] => stored
  | d :: ds => applyTrustDeltas (updateTrustScore stored d).1 ds

/-- Scores returned to the callers along a sequence of update calls. -/
def returnedTrustScores (stored : Int) : List Int → List Int
  | [] => []
  | d :: ds =>
      let r := updateTrustScore stored d
      r.2 :: returnedTrustScores r.1 ds

/-- One row of the image_hashes table as returned by the supabase select
in detect_coordinated_attack (a python dict per row). -/
structure HashRow where
  userId : String
  perceptualHash : String
  uploadedAt : Int
deriving DecidableEq

/-- Rows of image_hashes matching the queried perceptual hash inside the
one hour window, as selected by detect_coordinated_attack. -/
def matchingHashRows (table : List HashRow) (imageHash : String)
    (now : Int) : List HashRow :=
  table.filter (fun r =>
    r.perceptualHash == imageHash && decide (r.uploadedAt > now - 3600))

/-- Python semantics of set(result.data): each row is a dict and dicts are
unhashable, so building a set from a non-empty list of rows raises
TypeError; only the empty list yields a set (the empty one). -/
def pySetOfDictRows (rows : List HashRow) : Except String (List HashRow) :=
  match rows with
  | [] => Except.ok []
  | _ :: _ => Except.error "TypeError: unhashable type: dict"

/-- TrustSystemService.detect_coordinated_attack: selects the rows for the
hash in the last hour, computes len(set(rows)), compares with 3 and, on a
hit, inserts one bot_detection_patterns record; any exception inside the
body is caught and turns into the result False.  Returns the boolean
result together with the number of bot pattern records inserted. -/
def detectCoordinatedAttack (table : List HashRow) (imageHash : String)
    (now : Int) : Bool × Nat :=
  match pySetOfDictRows (matchingHashRows table imageHash now) with
  | Except.error _ => (false, 0)
  | Except.ok uniq =>
      if uniq.length ≥ 3 then (true, 1) else (false, 0)

/-- Modelled from the spec: detect_coordinated_attack is specified to
return true exactly when the same fingerprint was uploaded by at least 3
distinct identities within the last hour.  This definition follows the
spec wording and is compared against the source-derived definition. -/
def specDetectCoordinatedAttack (table : List HashRow) (imageHash : String)
    (now : Int) : Bool :=
  (((matchingHashRows table imageHash now).map
      (fun r => r.userId)).dedup.length) ≥ 3

/-- One abuse_logs row. -/
structure AbuseEntry where
  userId : String
  ipAddress : String
  violationType : String
  timestamp : Int
deriving DecidableEq

/-- Effect record of one log_abuse call. -/
structure LedgerEffects where
  newEntries : List AbuseEntry
  statIncrements : List String
  shadowBanCalls : List String
  ipBanWarnings : List String
  escalateIpBanCalls : List String
deriving DecidableEq

/-- Abuse entries of an identity inside the last 24 hours. -/
def userViolations24h (logs : List AbuseEntry) (u : String)
    (now : Int) : Nat :=
  logs.countP (fun e => e.userId == u && decide (e.timestamp > now - 86400))

/-- Abuse entries of an IP inside the last 24 hours. -/
def ipViolations24h (logs : List AbuseEntry) (ip : String)
    (now : Int) : Nat :=
  logs.countP (fun e =>
    e.ipAddress == ip && decide (e.timestamp > now - 86400))

/-- TrustSystemService.log_abuse followed by _check_escalation.  The RPC
log_abuse (whose body is not in the source tree) is modelled from the
spec as appending one abuse_logs row; increment_filter_stat is recorded
as a stat increment.  _check_escalation then counts the identity's
violations in the last 24 hours (the fresh entry included) and calls
shadow_ban_user when at least 5 are found; it counts the IP's violations
and, at 10 or more, only emits a log warning, with no call into
RateLimiterService.escalate_ip_ban.  Input: current abuse log and banned
set; output: updated abuse log, updated banned set, effects. -/
def logAbuse (logs : List AbuseEntry) (banned : List String) (now : Int)
    (u ip violationType : String) :
    List AbuseEntry × List String × LedgerEffects :=
  let entry : AbuseEntry := ⟨u, ip, violationType, now⟩
  let logs1 := logs ++ [entry]
  let userCount :=
    logs1.countP (fun e =>
      e.userId == u && decide (e.timestamp > now - 86400))
  let ipCount :=
    logs1.countP (fun e =>
      e.ipAddress == ip && decide (e.timestamp > now - 86400))
  let banned1 := if userCount ≥ 5 then u :: banned else banned
  (logs1, banned1,
    { newEntries := [entry]
      statIncrements := [violationType]
      shadowBanCalls := if userCount ≥ 5 then [u] else []
      ipBanWarnings := if ipCount ≥ 10 then [ip] else []
      escalateIpBanCalls := [] })

/-! ## Rate limiter (src/app/rate_limiter.py) -/

/-- Rate limit configuration (dataclass RateLimit). -/
structure RateLimit where
  maxPerHour : Nat
  maxPerDay : Nat
deriving DecidableEq

/-- Result of a rate limit check (dataclass RateLimitResult). -/
structure RateLimitResult where
  allowed : Bool
  reason : String
  retryAfter : Option Nat
  currentCount : Nat
  limit : Nat
deriving DecidableEq

/-- RateLimiterService.IP_LIMITS. -/
def ipLimits : RateLimit := ⟨20, 100⟩

/-- RateLimiterService.IP_REJECTION_LIMITS. -/
def ipRejectionLimits : RateLimit := ⟨10, 30⟩

/-- One ip_rate_limit_tracking row. -/
structure TrackRecord where
  ip : String
  actionType : String
  success : Bool
  timestamp : Int
deriving DecidableEq

/-- RateLimiterService.check_ip_rate_limit, translated from the source:
limits and the success filter value are chosen from check_rejections, the
hourly count filters on ip, action type, success equal to the filter
value and timestamp inside the last hour, while the daily count filters
on ip, action type and timestamp inside the last day only (the source
query has no success filter); denial carries retry_after 3600 for the
hourly window and 86400 for the daily one. -/
def checkIpRateLimit (table : List TrackRecord) (now : Int) (ip : String)
    (checkRejections : Bool) : RateLimitResult :=
  let limits := if checkRejections then ipRejectionLimits else ipLimits
  let actionFilter := if checkRejections then false else true
  let hourlyCount :=
    table.countP (fun r =>
      r.ip == ip && r.actionType == "issue_create" &&
      r.success == actionFilter && decide (r.timestamp > now - 3600))
  if hourlyCount ≥ limits.maxPerHour then
    ⟨false, "IP rate limit exceeded per hour", some 3600,
      hourlyCount, limits.maxPerHour⟩
  else
    let dailyCount :=
      table.countP (fun r =>
        r.ip == ip && r.actionType == "issue_create" &&
        decide (r.timestamp > now - 86400))
    if dailyCount ≥ limits.maxPerDay then
      ⟨false, "IP rate limit exceeded per day", some 86400,
        dailyCount, limits.maxPerDay⟩
    else
      ⟨true, "IP rate limit OK", none, hourlyCount, limits.maxPerHour⟩

/-- Count of successful issue_create records of an IP in the last hour
(the basis of the hourly window of check_ip_rate_limit). -/
def ipHourlySuccessCount (table : List TrackRecord) (now : Int)
    (ip : String) : Nat :=
  table.countP (fun r =>
    r.ip == ip && r.actionType == "issue_create" &&
    r.success == true && decide (r.timestamp > now - 3600))

/-- Count of all issue_create records of an IP in the last day,
successful or not (the basis of the daily window). -/
def ipDailyAllCount (table : List TrackRecord) (now : Int)
    (ip : String) : Nat :=
  table.countP (fun r =>
    r.ip == ip && r.actionType == "issue_create" &&
    decide (r.timestamp > now - 86400))

/-! ## Pre-ingestion gate (src/app/pre_ingestion_filter.py) -/

/-- Result record of the gate (dataclass FilteringDecision); the details
dict is reduced to the fields the claims mention. -/
structure FilteringDecision where
  allowed : Bool
  reason : String
  severity : String
  retryAfter : Option Nat
  trustScore : Int
  isShadowBanned : Bool
deriving DecidableEq

/-- The checks of run_all_checks that issue queries of their own; used to
record which stages actually ran for a given submission. -/
inductive GateCheck where
  | shadowBan
  | ipBlacklist
  | userRateLimit
  | ipRateLimit
  | contentFilters
deriving DecidableEq

/-- Effects accumulated by one run_all_checks call. -/
structure GateEffects where
  checksRun : List GateCheck
  shadowStored : List String
  abuseLogs : List (String × String)
  recordAttempts : List Bool
  trustUpdates : List Int
deriving DecidableEq

/-- Environment of one run_all_checks call: the answers the collaborating
services would give if consulted (the gate may short-circuit before
consulting them). -/
structure GateEnv where
  shadowBanned : Bool
  blacklist : Option String
  trustScore : Int
  userRate : RateLimitResult
  ipRate : RateLimitResult
  contentPassed : Bool
  failedFilterName : String
  failedFilterSeverity : String
  failedFilterReason : String
deriving DecidableEq

/-- Trust delta applied on a content filter failure:
TRUST_DELTAS.get(filter_name, -5) with the table from TrustSystemService. -/
def trustDeltaFor (filterName : String) : Int :=
  if filterName == "nsfw" then -30
  else if filterName == "duplicate" then -10
  else if filterName == "ocr" then -5
  else if filterName == "garbage" then -5
  else if filterName == "rate_limit" then -3
  else if filterName == "bot_behavior" then -20
  else if filterName == "verified_issue" then 2
  else if filterName == "issue_resolved" then 5
  else -5

/-- PreIngestionFilter.run_all_checks: the ordered short-circuiting
pipeline from the source.  Stage 0 checks the shadow ban and, when set,
stores the submission as evidence and returns a denial flagged
is_shadow_banned with no further stage consulted; the later stages follow
the source order (ip blacklist, user rate limit, ip rate limit, content
filters) with their abuse logging, attempt recording and trust updates.
The second component records the effects. -/
def runAllChecks (env : GateEnv) (submissionData : String) :
    FilteringDecision × GateEffects :=
  if env.shadowBanned then
    (⟨false, "Shadow banned (hidden from user)", "critical", none, 100,
       true⟩,
     ⟨[GateCheck.shadowBan], [submissionData], [], [], []⟩)
  else
    match env.blacklist with
    | some blacklistReason =>
        (⟨false, blacklistReason, "critical", none, 100, false⟩,
         ⟨[GateCheck.shadowBan, GateCheck.ipBlacklist], [],
           [("ip_blacklisted", "critical")], [], []⟩)
    | none =>
        if !env.userRate.allowed then
          (⟨false, env.userRate.reason, "low", env.userRate.retryAfter,
             dbUpdateTrustScore env.trustScore (-3), false⟩,
           ⟨[GateCheck.shadowBan, GateCheck.ipBlacklist,
              GateCheck.userRateLimit], [],
             [("rate_limit", "low")], [false], [-3]⟩)
        else if !env.ipRate.allowed then
          (⟨false, env.ipRate.reason, "medium", env.ipRate.retryAfter,
             env.trustScore, false⟩,
           ⟨[GateCheck.shadowBan, GateCheck.ipBlacklist,
              GateCheck.userRateLimit, GateCheck.ipRateLimit], [],
             [("ip_rate_limit", "medium")], [false], []⟩)
        else if !env.contentPassed then
          (⟨false, env.failedFilterReason, env.failedFilterSeverity, none,
             dbUpdateTrustScore env.trustScore
               (trustDeltaFor env.failedFilterName), false⟩,
           ⟨[GateCheck.shadowBan, GateCheck.ipBlacklist,
              GateCheck.userRateLimit, GateCheck.ipRateLimit,
              GateCheck.contentFilters], [],
             [(env.failedFilterName, env.failedFilterSeverity)], [false],
             [trustDeltaFor env.failedFilterName]⟩)
        else
          (⟨true, "All checks passed", "low", none, env.trustScore,
             false⟩,
           ⟨[GateCheck.shadowBan, GateCheck.ipBlacklist,
              GateCheck.userRateLimit, GateCheck.ipRateLimit,
              GateCheck.contentFilters], [], [], [true], []⟩)

/-! ## Verification worker (src/app/verification_worker.py) -/

/-- Verification statuses of the worker state machine; the same labels
appear as audit entry statuses in verification_audit_log. -/
inductive VStatus where
  | pending
  | processing
  | verified
  | rejected
  | failed
  | pendingManual
deriving DecidableEq

/-- One issues row, reduced to the fields the worker reads and writes. -/
structure Submission where
  verificationStatus : VStatus
  retryCount : Nat
  hasImage : Bool
deriving DecidableEq

/-- Classifier verdict fields that drive the worker's rejection
predicates (AIVerificationResponse). -/
structure AIVerdict where
  isGenuine : Bool
  isNsfw : Bool
  isScreenshot : Bool
deriving DecidableEq

/-- Fallback verdict built by verify_issue_without_ai: is_genuine true
and the nsfw and screenshot flags at their false defaults. -/
def fallbackVerdict : AIVerdict := ⟨true, false, false⟩

/-- Outcome of the retry-count select inside increment_retry_count:
the query can throw, return no row, or return the row with its
retry_count column (which may be NULL). -/
inductive RetryRead where
  | dbError
  | rowMissing
  | row (value : Option Nat)
deriving DecidableEq

/-- VerificationWorker.increment_retry_count: returns 0 when the select
throws or finds no row; otherwise treats a NULL count as 0, writes the
incremented count back and returns it.  The second component is the
value written to the row, if any. -/
def incrementRetryCount : RetryRead → Nat × Option Nat
  | RetryRead.dbError => (0, none)
  | RetryRead.rowMissing => (0, none)
  | RetryRead.row v => (v.getD 0 + 1, some (v.getD 0 + 1))

/-- Rejection reason chosen by create_rejected_issue: nsfw first, then
screenshot, then not genuine, with ai_verification_failed as default. -/
def rejectionReason (v : AIVerdict) : String :=
  if v.isNsfw then "nsfw_content_detected"
  else if v.isScreenshot then "screenshot_or_meme_detected"
  else if !v.isGenuine then "not_genuine_civic_issue"
  else "ai_verification_failed"

/-- Rejection predicate of process_issue: nsfw, screenshot or not
genuine, in that priority order (the first true one names the reason). -/
def shouldReject (v : AIVerdict) : Bool :=
  v.isNsfw || v.isScreenshot || !v.isGenuine

/-- Effects accumulated by one process_issue call: audit entries (their
status labels in order), writes of verification_status through
mark_issue_processed, retry count writes, inserted rejected records (by
rejection reason), inserted verified records, penalty RPC calls,
rejection and success notices, point awards. -/
structure WorkerEffects where
  audits : List VStatus
  statusWrites : List VStatus
  retryWrites : List Nat
  rejectedRecords : List String
  verifiedRecords : Nat
  penaltyCalls : Nat
  rejectionEmails : Nat
  successEmails : Nat
  pointsAwards : List Nat
deriving DecidableEq

/-- Empty effect record. -/
def noEffects : WorkerEffects := ⟨[], [], [], [], 0, 0, 0, 0, []⟩

/-- Environment of one process_issue call: whether another coroutine
holds the in-memory lock for this id, the outcome of the retry-count
read, the AI_VERIFICATION_ENABLED setting, the classifier result (none
when every classifier attempt failed) and whether record inserts return
data. -/
structure WorkerEnv where
  lockHeld : Bool
  retryRead : RetryRead
  aiEnabled : Bool
  classifierResult : Option AIVerdict
  insertOk : Bool
deriving DecidableEq

/-- VerificationWorker.process_issue, translated from the source: skip
when the id is already in the processing lock; write a processing audit
entry; increment the retry count; at a new count of 3 or more write a
pending_manual audit entry and stop without touching the stored status;
otherwise obtain a verdict (the classifier when AI is enabled and an
image is present, the fallback otherwise), and when the classifier
yields nothing write a pending audit entry and stop, leaving the status
as it was; on a verdict, write the rejected or verified audit entry,
insert the matching record, update the stored status (failed when the
insert returns no data) and run the compensating actions (penalty RPC
plus one rejection notice, or 25 points plus one success notice). -/
def processIssue (s : Submission) (env : WorkerEnv) :
    Submission × WorkerEffects :=
  if env.lockHeld then (s, noEffects)
  else
    let inc := incrementRetryCount env.retryRead
    let s1 :=
      match inc.2 with
      | some n => { s with retryCount := n }
      | none => s
    let e1 : WorkerEffects :=
      { noEffects with
          audits := [VStatus.processing]
          retryWrites := inc.2.toList }
    if inc.1 ≥ 3 then
      (s1, { e1 with audits := e1.audits ++ [VStatus.pendingManual] })
    else
      let verdictOpt : Option AIVerdict :=
        if env.aiEnabled && s.hasImage then env.classifierResult
        else some fallbackVerdict
      match verdictOpt with
      | none =>
          (s1, { e1 with audits := e1.audits ++ [VStatus.pending] })
      | some v =>
          if shouldReject v then
            let e2 := { e1 with audits := e1.audits ++ [VStatus.rejected] }
            if env.insertOk then
              ({ s1 with verificationStatus := VStatus.rejected },
               { e2 with
                   rejectedRecords := [rejectionReason v]
                   statusWrites := [VStatus.rejected]
                   penaltyCalls := 1
                   rejectionEmails := 1 })
            else
              ({ s1 with verificationStatus := VStatus.failed },
               { e2 with statusWrites := [VStatus.failed] })
          else
            let e2 := { e1 with audits := e1.audits ++ [VStatus.verified] }
            if env.insertOk then
              ({ s1 with verificationStatus := VStatus.verified },
               { e2 with
                   verifiedRecords := 1
                   statusWrites := [VStatus.verified]
                   successEmails := 1
                   pointsAwards := [25] })
            else
              ({ s1 with verificationStatus := VStatus.failed },
               { e2 with statusWrites := [VStatus.failed] })

/-- Selection predicate of process_pending_issues: status pending and
retry_count strictly below 3. -/
def selectable (s : Submission) : Bool :=
  s.verificationStatus == VStatus.pending && decide (s.retryCount < 3)

/-- Per-pass environment: the external conditions of one automatic pass
(the retry-count read is the consistent one, returning the stored
value, and the lock is free when process_pending_issues reaches the
item). -/
structure PassEnv where
  aiEnabled : Bool
  classifierResult : Option AIVerdict
  insertOk : Bool
deriving DecidableEq

/-- Worker environment of an automatic pass over a given submission. -/
def passWorkerEnv (s : Submission) (p : PassEnv) : WorkerEnv :=
  ⟨false, RetryRead.row (some s.retryCount), p.aiEnabled,
    p.classifierResult, p.insertOk⟩

/-- One automatic pass over one submission: process it when the
selection predicate admits it, leave it untouched otherwise. -/
def workerPass (s : Submission) (p : PassEnv) :
    Submission × WorkerEffects :=
  if selectable s then processIssue s (passWorkerEnv s p)
  else (s, noEffects)

/-- Submission state after a sequence of automatic passes. -/
def runPasses (s : Submission) : List PassEnv → Submission
  | [] => s
  | p :: ps => runPasses (workerPass s p).1 ps

/-! ## Concurrent double-processing model

Two coroutines each run process_issue on the same pending submission,
interleaving at the await points of the source.  Each atomic step below
is one shared-state operation of the source: the membership test plus
add on the in-memory processing_lock set (no await separates them), the
retry-count select, the retry-count update, the classifier call, the
keyed record insert, the status update and the compensating action.
Record inserts are modelled from the spec as keyed by the submission id
(a second insert into the same table finds the key taken and returns no
data, which the source maps to the failed status with no compensating
action). -/

/-- Program counter of one in-flight process_issue coroutine. -/
inductive CPc where
  | entry
  | readRetry
  | writeRetry
  | classify
  | insertRec
  | markStatus
  | compensate
  | release
  | halt
deriving DecidableEq

/-- Local state of one coroutine: its program counter, the verdict its
own classifier call will return, the retry count it read, whether it
acquired the lock, and which effects it has applied. -/
structure PassLocal where
  pc : CPc
  verdict : Option AIVerdict
  cur : Nat
  acquired : Bool
  gotRej : Bool
  gotVer : Bool
  didPenalty : Bool
  didReward : Bool
deriving DecidableEq

/-- Shared state: the per-id entry of the in-memory lock set, the issues
row, and the counts of keyed records and compensating actions applied
for this submission id. -/
structure CShared where
  lock : Bool
  retry : Nat
  status : VStatus
  rejRecords : Nat
  verRecords : Nat
  penalties : Nat
  rewards : Nat
deriving DecidableEq

/-- One atomic step of one coroutine against the shared state. -/
def passStep (sh : CShared) (p : PassLocal) : CShared × PassLocal :=
  match p.pc with
  | CPc.entry =>
      if sh.lock then (sh, { p with pc := CPc.halt })
      else ({ sh with lock := true },
            { p with pc := CPc.readRetry, acquired := true })
  | CPc.readRetry =>
      (sh, { p with pc := CPc.writeRetry, cur := sh.retry })
  | CPc.writeRetry =>
      ({ sh with retry := p.cur + 1 },
       { p with pc := if p.cur + 1 ≥ 3 then CPc.release else CPc.classify })
  | CPc.classify =>
      match p.verdict with
      | none => (sh, { p with pc := CPc.release })
      | some _ => (sh, { p with pc := CPc.insertRec })
  | CPc.insertRec =>
      match p.verdict with
      | none => (sh, { p with pc := CPc.release })
      | some v =>
          if shouldReject v then
            if sh.rejRecords = 0 then
              ({ sh with rejRecords := sh.rejRecords + 1 },
               { p with pc := CPc.markStatus, gotRej := true })
            else (sh, { p with pc := CPc.markStatus })
          else
            if sh.verRecords = 0 then
              ({ sh with verRecords := sh.verRecords + 1 },
               { p with pc := CPc.markStatus, gotVer := true })
            else (sh, { p with pc := CPc.markStatus })
  | CPc.markStatus =>
      if p.gotRej then
        ({ sh with status := VStatus.rejected },
         { p with pc := CPc.compensate })
      else if p.gotVer then
        ({ sh with status := VStatus.verified },
         { p with pc := CPc.compensate })
      else
        ({ sh with status := VStatus.failed },
         { p with pc := CPc.release })
  | CPc.compensate =>
      if p.gotRej then
        ({ sh with penalties := sh.penalties + 1 },
         { p with pc := CPc.release, didPenalty := true })
      else if p.gotVer then
        ({ sh with rewards := sh.rewards + 1 },
         { p with pc := CPc.release, didReward := true })
      else (sh, { p with pc := CPc.release })
  | CPc.release =>
      if p.acquired then ({ sh with lock := false },
                          { p with pc := CPc.halt })
      else (sh, { p with pc := CPc.halt })
  | CPc.halt => (sh, p)

/-- Full system state of two concurrent passes. -/
structure CState where
  shared : CShared
  a : PassLocal
  b : PassLocal
deriving DecidableEq

/-- One scheduled step: true advances coroutine a, false coroutine b. -/
def systemStep (st : CState) (who : Bool) : CState :=
  if who then
    let r := passStep st.shared st.a
    ⟨r.1, r.2, st.b⟩
  else
    let r := passStep st.shared st.b
    ⟨r.1, st.a, r.2⟩

/-- Run of the two-coroutine system under an arbitrary schedule. -/
def runSched (st : CState) : List Bool → CState
  | [] => st
  | w :: ws => runSched (systemStep st w) ws

/-- Fresh coroutine about to call process_issue, with the verdict its
classifier call will produce. -/
def freshPass (v : Option AIVerdict) : PassLocal :=
  ⟨CPc.entry, v, 0, false, false, false, false, false⟩

/-- Shared state of a freshly selected pending submission: lock free, no
records, no compensating actions yet. -/
def freshShared (retry0 : Nat) : CShared :=
  ⟨false, retry0, VStatus.pending, 0, 0, 0, 0⟩

/-- Initial system state of two concurrent passes over the same pending
submission. -/
def doubleProcState (retry0 : Nat) (va vb : Option AIVerdict) : CState :=
  ⟨freshShared retry0, freshPass va, freshPass vb⟩

/-- Per-coroutine part of the concurrency invariant: compensating flags
imply the matching record flag, and are only set when the coroutine has
moved past its compensation step. -/
def InvP (p : PassLocal) : Prop :=
  (p.didPenalty = true → p.gotRej = true) ∧
  (p.didReward = true → p.gotVer = true) ∧
  (p.didPenalty = true → p.pc = CPc.release ∨ p.pc = CPc.halt) ∧
  (p.didReward = true → p.pc = CPc.release ∨ p.pc = CPc.halt)

/-- Concurrency invariant: shared record and compensation counters agree
with the coroutines' local flags, and a keyed record is never inserted
twice. -/
def CInv (sh : CShared) (p q : PassLocal) : Prop :=
  InvP p ∧ InvP q ∧
  sh.rejRecords = p.gotRej.toNat + q.gotRej.toNat ∧
  sh.verRecords = p.gotVer.toNat + q.gotVer.toNat ∧
  sh.penalties = p.didPenalty.toNat + q.didPenalty.toNat ∧
  sh.rewards = p.didReward.toNat + q.didReward.toNat ∧
  ¬(p.gotRej = true ∧ q.gotRej = true) ∧
  ¬(p.gotVer = true ∧ q.gotVer = true)

/-! ## Theorems -/

/-- C1: for every identity and every sequence of update_trust_score
calls, starting from any stored score in the interval from 0 to 100, the
stored trust score and every new_score returned to a caller stay in the
interval from 0 to 100; each call is the atomic clamp-add of its delta
(the database clamp is modelled from the spec, the python-side default
of 100 on a falsy RPC result is from the source). -/
theorem trust_score_clamped (init : Int) (h0 : 0 ≤ init)
    (h100 : init ≤ 100) (deltas : List Int) :
    (0 ≤ applyTrustDeltas init deltas ∧
       applyTrustDeltas init deltas ≤ 100) ∧
    ∀ r ∈ returnedTrustScores init deltas, 0 ≤ r ∧ r ≤ 100 := by
  induction deltas generalizing init with
  | nil =>
      exact ⟨⟨h0, h100⟩, by simp [returnedTrustScores]⟩
  | cons d ds ih =>
      have hns : 0 ≤ dbUpdateTrustScore init d ∧
          dbUpdateTrustScore init d ≤ 100 := by
        unfold dbUpdateTrustScore
        omega
      have hrest := ih (dbUpdateTrustScore init d) hns.1 hns.2
      refine ⟨?_, ?_⟩
      · simpa [applyTrustDeltas, updateTrustScore] using hrest.1
      · intro r hr
        simp only [returnedTrustScores, updateTrustScore,
          List.mem_cons] at hr
        rcases hr with hr | hr
        · subst hr
          simp only [pyReturnedScore]
          split <;> omega
        · exact hrest.2 r hr

/-- Witness for C1 at a concrete starting score and delta sequence. -/
theorem trust_score_clamped_witness :
    (0 ≤ applyTrustDeltas 100 [-50, -70, 30, 200] ∧
       applyTrustDeltas 100 [-50, -70, 30, 200] ≤ 100) ∧
    ∀ r ∈ returnedTrustScores 100 [-50, -70, 30, 200],
      0 ≤ r ∧ r ≤ 100 :=
  trust_score_clamped 100 (by decide) (by decide) [-50, -70, 30, 200]

/-- C5: with the same fingerprint uploaded by three distinct identities
inside the last hour, detect_coordinated_attack still returns false and
inserts no bot pattern record, because building the python set over the
non-empty list of row dicts raises TypeError, which the catch-all turns
into false; the behaviour the spec and the function's own docstring
describe (second conjunct) would return true on this input. -/
theorem detect_coordinated_attack_code_bug :
    detectCoordinatedAttack
      [⟨"u1", "h1", 1000⟩, ⟨"u2", "h1", 1100⟩, ⟨"u3", "h1", 1200⟩]
      "h1" 1200 = (false, 0) ∧
    specDetectCoordinatedAttack
      [⟨"u1", "h1", 1000⟩, ⟨"u2", "h1", 1100⟩, ⟨"u3", "h1", 1200⟩]
      "h1" 1200 = true := by decide

/-- C3: when the user is shadow-banned, run_all_checks returns a denial
flagged is_shadow_banned, stores the submission payload as evidence,
writes no abuse entry, and short-circuits before the blacklist, rate
limit and content filter stages. -/
theorem shadow_ban_short_circuits (env : GateEnv) (d : String)
    (h : env.shadowBanned = true) :
    (runAllChecks env d).1.allowed = false ∧
    (runAllChecks env d).1.isShadowBanned = true ∧
    (runAllChecks env d).2.shadowStored = [d] ∧
    (runAllChecks env d).2.abuseLogs = [] ∧
    (runAllChecks env d).2.checksRun = [GateCheck.shadowBan] ∧
    GateCheck.ipBlacklist ∉ (runAllChecks env d).2.checksRun ∧
    GateCheck.userRateLimit ∉ (runAllChecks env d).2.checksRun ∧
    GateCheck.ipRateLimit ∉ (runAllChecks env d).2.checksRun ∧
    GateCheck.contentFilters ∉ (runAllChecks env d).2.checksRun ∧
    (runAllChecks env d).2.recordAttempts = [] ∧
    (runAllChecks env d).2.trustUpdates = [] := by
  simp [runAllChecks, h]

/-- Witness for C3 at a concrete shadow-banned environment. -/
theorem shadow_ban_short_circuits_witness :
    (runAllChecks
        ⟨true, none, 100, ⟨true, "", none, 0, 0⟩, ⟨true, "", none, 0, 0⟩,
          true, "", "", ""⟩ "payload").1.allowed = false ∧
    (runAllChecks
        ⟨true, none, 100, ⟨true, "", none, 0, 0⟩, ⟨true, "", none, 0, 0⟩,
          true, "", "", ""⟩ "payload").1.isShadowBanned = true ∧
    (runAllChecks
        ⟨true, none, 100, ⟨true, "", none, 0, 0⟩, ⟨true, "", none, 0, 0⟩,
          true, "", "", ""⟩ "payload").2.shadowStored = ["payload"] ∧
    (runAllChecks
        ⟨true, none, 100, ⟨true, "", none, 0, 0⟩, ⟨true, "", none, 0, 0⟩,
          true, "", "", ""⟩ "payload").2.abuseLogs = [] ∧
    (runAllChecks
        ⟨true, none, 100, ⟨true, "", none, 0, 0⟩, ⟨true, "", none, 0, 0⟩,
          true, "", "", ""⟩ "payload").2.checksRun = [GateCheck.shadowBan] ∧
    GateCheck.ipBlacklist ∉ (runAllChecks
        ⟨true, none, 100, ⟨true, "", none, 0, 0⟩, ⟨true, "", none, 0, 0⟩,
          true, "", "", ""⟩ "payload").2.checksRun ∧
    GateCheck.userRateLimit ∉ (runAllChecks
        ⟨true, none, 100, ⟨true, "", none, 0, 0⟩, ⟨true, "", none, 0, 0⟩,
          true, "", "", ""⟩ "payload").2.checksRun ∧
    GateCheck.ipRateLimit ∉ (runAllChecks
        ⟨true, none, 100, ⟨true, "", none, 0, 0⟩, ⟨true, "", none, 0, 0⟩,
          true, "", "", ""⟩ "payload").2.checksRun ∧
    GateCheck.contentFilters ∉ (runAllChecks
        ⟨true, none, 100, ⟨true, "", none, 0, 0⟩, ⟨true, "", none, 0, 0⟩,
          true, "", "", ""⟩ "payload").2.checksRun ∧
    (runAllChecks
        ⟨true, none, 100, ⟨true, "", none, 0, 0⟩, ⟨true, "", none, 0, 0⟩,
          true, "", "", ""⟩ "payload").2.recordAttempts = [] ∧
    (runAllChecks
        ⟨true, none, 100, ⟨true, "", none, 0, 0⟩, ⟨true, "", none, 0, 0⟩,
          true, "", "", ""⟩ "payload").2.trustUpdates = [] :=
  shadow_ban_short_circuits
    ⟨true, none, 100, ⟨true, "", none, 0, 0⟩, ⟨true, "", none, 0, 0⟩,
      true, "", "", ""⟩ "payload" rfl

set_option maxRecDepth 4096 in
/-- C6 counterexample: an IP whose only traffic is 100 unsuccessful
issue_create attempts inside the last day (and none in the last hour)
is denied by check_ip_rate_limit with check_rejections false and
retry_after 86400, although it has no prior successful action at all;
so the daily window does not count only successful actions. -/
theorem ip_daily_limit_counts_failures :
    (checkIpRateLimit
        (List.replicate 100 ⟨"9.9.9.9", "issue_create", false, 150000⟩)
        200000 "9.9.9.9" false).allowed = false ∧
    (checkIpRateLimit
        (List.replicate 100 ⟨"9.9.9.9", "issue_create", false, 150000⟩)
        200000 "9.9.9.9" false).retryAfter = some 86400 ∧
    (List.replicate 100
        (⟨"9.9.9.9", "issue_create", false, 150000⟩ : TrackRecord)).countP
      (fun r => r.success) = 0 := by decide

/-- C6 as amended: with check_rejections false, the hourly window of
check_ip_rate_limit counts only prior successful issue_create actions of
the IP and denies with retry_after 3600 at 20 or more; the daily window
counts all issue_create actions of the IP regardless of success and
denies with retry_after 86400 at 100 or more. -/
theorem check_ip_rate_limit_windows (table : List TrackRecord)
    (now : Int) (ip : String) :
    ((checkIpRateLimit table now ip false).allowed = false ∧
       (checkIpRateLimit table now ip false).retryAfter = some 3600 ↔
     ipHourlySuccessCount table now ip ≥ 20) ∧
    ((checkIpRateLimit table now ip false).allowed = false ∧
       (checkIpRateLimit table now ip false).retryAfter = some 86400 ↔
     ipHourlySuccessCount table now ip < 20 ∧
       ipDailyAllCount table now ip ≥ 100) ∧
    ((checkIpRateLimit table now ip false).allowed = true ↔
     ipHourlySuccessCount table now ip < 20 ∧
       ipDailyAllCount table now ip < 100) := by
  unfold checkIpRateLimit ipLimits ipRejectionLimits
  unfold ipHourlySuccessCount ipDailyAllCount
  simp only [if_true, if_false, Bool.if_true_left]
  split_ifs with h1 h2 <;> simp_all

/-- C8 counterexample: after an abuse entry whose IP reaches 10
violations inside 24 hours, log_abuse only records a warning for the IP
and performs no call into the Limiter's escalate_ip_ban. -/
theorem log_abuse_no_ip_ban_delegation :
    ((logAbuse
        [⟨"a1", "7.7.7.7", "nsfw", 500000⟩,
         ⟨"a2", "7.7.7.7", "nsfw", 500000⟩,
         ⟨"a3", "7.7.7.7", "nsfw", 500000⟩,
         ⟨"a4", "7.7.7.7", "nsfw", 500000⟩,
         ⟨"a5", "7.7.7.7", "nsfw", 500000⟩,
         ⟨"a6", "7.7.7.7", "nsfw", 500000⟩,
         ⟨"a7", "7.7.7.7", "nsfw", 500000⟩,
         ⟨"a8", "7.7.7.7", "nsfw", 500000⟩,
         ⟨"a9", "7.7.7.7", "nsfw", 500000⟩] [] 500000
        "a10" "7.7.7.7" "nsfw").2.2).ipBanWarnings = ["7.7.7.7"] ∧
    ((logAbuse
        [⟨"a1", "7.7.7.7", "nsfw", 500000⟩,
         ⟨"a2", "7.7.7.7", "nsfw", 500000⟩,
         ⟨"a3", "7.7.7.7", "nsfw", 500000⟩,
         ⟨"a4", "7.7.7.7", "nsfw", 500000⟩,
         ⟨"a5", "7.7.7.7", "nsfw", 500000⟩,
         ⟨"a6", "7.7.7.7", "nsfw", 500000⟩,
         ⟨"a7", "7.7.7.7", "nsfw", 500000⟩,
         ⟨"a8", "7.7.7.7", "nsfw", 500000⟩,
         ⟨"a9", "7.7.7.7", "nsfw", 500000⟩] [] 500000
        "a10" "7.7.7.7" "nsfw").2.2).escalateIpBanCalls = [] := by decide

/-- C8 as amended: every log_abuse call appends one abuse entry, records
one per-type stat increment, shadow-bans the identity exactly when it
then has at least 5 abuse entries inside the last 24 hours, and at 10 or
more entries for the IP inside the last 24 hours only logs a warning
flagging the IP, with no call into the Limiter's escalate_ip_ban. -/
theorem log_abuse_escalation (logs : List AbuseEntry)
    (banned : List String) (now : Int) (u ip vt : String) :
    (logAbuse logs banned now u ip vt).1 = logs ++ [⟨u, ip, vt, now⟩] ∧
    ((logAbuse logs banned now u ip vt).2.2).newEntries =
      [⟨u, ip, vt, now⟩] ∧
    ((logAbuse logs banned now u ip vt).2.2).statIncrements = [vt] ∧
    (((logAbuse logs banned now u ip vt).2.2).shadowBanCalls = [u] ↔
      userViolations24h (logs ++ [⟨u, ip, vt, now⟩]) u now ≥ 5) ∧
    (u ∈ (logAbuse logs banned now u ip vt).2.1 ↔
      userViolations24h (logs ++ [⟨u, ip, vt, now⟩]) u now ≥ 5 ∨
        u ∈ banned) ∧
    (((logAbuse logs banned now u ip vt).2.2).ipBanWarnings = [ip] ↔
      ipViolations24h (logs ++ [⟨u, ip, vt, now⟩]) ip now ≥ 10) ∧
    ((logAbuse logs banned now u ip vt).2.2).escalateIpBanCalls = [] := by
  simp only [logAbuse, userViolations24h, ipViolations24h]
  split_ifs with h1 h2 <;> simp_all

/-- Helper: under the consistent retry-count read, process_issue always
writes back exactly the stored count plus one. -/
lemma processIssue_consistent_retry (s : Submission) (env : WorkerEnv)
    (hlock : env.lockHeld = false)
    (hread : env.retryRead = RetryRead.row (some s.retryCount)) :
    (processIssue s env).1.retryCount = s.retryCount + 1 := by
  rcases hv : env.classifierResult with _ | v <;>
    cases hai : env.aiEnabled <;>
    cases himg : s.hasImage <;>
    simp [processIssue, hlock, hread, hv, hai, himg,
      incrementRetryCount] <;>
    split_ifs <;>
    simp

/-- Helper: a submission the selection predicate excludes is left
untouched by an automatic pass, with no effects. -/
lemma workerPass_not_selectable (s : Submission) (p : PassEnv)
    (h : selectable s = false) : workerPass s p = (s, noEffects) := by
  simp [workerPass, h]

/-- Helper: a retry count of 3 or more fails the selection predicate. -/
lemma selectable_false_of_retry_ge (s : Submission)
    (h : s.retryCount ≥ 3) : selectable s = false := by
  simp [selectable]
  omega

/-- Helper: the retry count after one automatic pass. -/
lemma workerPass_retry (s : Submission) (p : PassEnv) :
    (workerPass s p).1.retryCount =
      if selectable s then s.retryCount + 1 else s.retryCount := by
  unfold workerPass
  split
  · exact processIssue_consistent_retry s (passWorkerEnv s p) rfl rfl
  · rfl

/-- Helper: a submission whose retry count reached 3 is frozen for every
later sequence of automatic passes. -/
lemma runPasses_frozen (s : Submission) (ps : List PassEnv)
    (h : s.retryCount = 3) : runPasses s ps = s := by
  induction ps with
  | nil => rfl
  | cons p ps ih =>
      rw [runPasses,
        workerPass_not_selectable s p
          (selectable_false_of_retry_ge s (by omega))]
      exact ih

/-- Helper: automatic passes keep the retry count between its old value
and 3. -/
lemma runPasses_retry_bounds (s : Submission) (ps : List PassEnv)
    (h : s.retryCount ≤ 3) :
    s.retryCount ≤ (runPasses s ps).retryCount ∧
      (runPasses s ps).retryCount ≤ 3 := by
  induction ps generalizing s with
  | nil => exact ⟨Nat.le_refl _, h⟩
  | cons p ps ih =>
      have hw := workerPass_retry s p
      by_cases hsel : selectable s = true
      · have hlt : s.retryCount < 3 := by
          have := hsel
          simp [selectable] at this
          exact this.2
        rw [if_pos hsel] at hw
        have hnext := ih (workerPass s p).1 (by omega)
        rw [runPasses]
        omega
      · rw [if_neg hsel] at hw
        have hnext := ih (workerPass s p).1 (by omega)
        rw [runPasses]
        omega

/-- Helper: a pending submission at retry count 2, once selected, has its
count pushed to 3, gets a pending_manual audit entry, keeps its stored
status pending with no status write, and stops being selectable. -/
lemma workerPass_hits_cap (s : Submission) (p : PassEnv)
    (hst : s.verificationStatus = VStatus.pending)
    (h2 : s.retryCount = 2) :
    workerPass s p = ({ s with retryCount := 3 },
      { noEffects with
          audits := [VStatus.processing, VStatus.pendingManual]
          retryWrites := [3] }) := by
  have hsel : selectable s = true := by simp [selectable, hst, h2]
  simp [workerPass, hsel, processIssue, passWorkerEnv,
    incrementRetryCount, h2, noEffects]

/-- C2 as amended: across automatic worker passes the retry count is
monotonically non-decreasing and never exceeds 3; when the increment
performed by process_issue reaches 3, a pending_manual audit entry is
written but the stored verification_status remains pending (it is not
set to pending_manual), and the submission is never again selected or
mutated by a later automatic pass because retry_count < 3 fails. -/
theorem retry_cap_and_freeze (s : Submission) (ps : List PassEnv)
    (h : s.retryCount ≤ 3) :
    s.retryCount ≤ (runPasses s ps).retryCount ∧
    (runPasses s ps).retryCount ≤ 3 ∧
    (s.retryCount = 3 → runPasses s ps = s) ∧
    (∀ p, s.retryCount = 3 → workerPass s p = (s, noEffects)) ∧
    (∀ p, s.verificationStatus = VStatus.pending → s.retryCount = 2 →
      (workerPass s p).2.audits =
        [VStatus.processing, VStatus.pendingManual] ∧
      (workerPass s p).1.verificationStatus = VStatus.pending ∧
      (workerPass s p).1.retryCount = 3 ∧
      (workerPass s p).2.statusWrites = [] ∧
      selectable (workerPass s p).1 = false) := by
  refine ⟨(runPasses_retry_bounds s ps h).1,
    (runPasses_retry_bounds s ps h).2,
    fun h3 => runPasses_frozen s ps h3,
    fun p h3 => workerPass_not_selectable s p
      (selectable_false_of_retry_ge s (by omega)), ?_⟩
  intro p hst h2
  rw [workerPass_hits_cap s p hst h2]
  refine ⟨rfl, hst, rfl, rfl, ?_⟩
  exact selectable_false_of_retry_ge _ (by simp)

/-- Witness for C2 at a concrete pending submission and pass list. -/
theorem retry_cap_and_freeze_witness :
    (2 ≤ (runPasses ⟨VStatus.pending, 2, true⟩
        [⟨true, some ⟨true, false, false⟩, true⟩]).retryCount) ∧
    (runPasses ⟨VStatus.pending, 2, true⟩
        [⟨true, some ⟨true, false, false⟩, true⟩]).retryCount ≤ 3 ∧
    ((2 : Nat) = 3 → runPasses ⟨VStatus.pending, 2, true⟩
        [⟨true, some ⟨true, false, false⟩, true⟩] =
      ⟨VStatus.pending, 2, true⟩) ∧
    (∀ p, (2 : Nat) = 3 →
      workerPass ⟨VStatus.pending, 2, true⟩ p =
        (⟨VStatus.pending, 2, true⟩, noEffects)) ∧
    (∀ p, VStatus.pending = VStatus.pending → (2 : Nat) = 2 →
      (workerPass ⟨VStatus.pending, 2, true⟩ p).2.audits =
        [VStatus.processing, VStatus.pendingManual] ∧
      (workerPass ⟨VStatus.pending, 2, true⟩ p).1.verificationStatus =
        VStatus.pending ∧
      (workerPass ⟨VStatus.pending, 2, true⟩ p).1.retryCount = 3 ∧
      (workerPass ⟨VStatus.pending, 2, true⟩ p).2.statusWrites = [] ∧
      selectable (workerPass ⟨VStatus.pending, 2, true⟩ p).1 = false) :=
  retry_cap_and_freeze ⟨VStatus.pending, 2, true⟩
    [⟨true, some ⟨true, false, false⟩, true⟩] (by decide)

/-- C2 counterexample: when the increment performed by process_issue
reaches 3, the stored verification_status does not become
pending_manual: it stays pending, while pending_manual appears only as
an audit entry and no status write happens. -/
theorem retry_cap_status_not_pending_manual :
    (processIssue ⟨VStatus.pending, 2, true⟩
        ⟨false, RetryRead.row (some 2), true,
          some ⟨false, false, false⟩, true⟩).1.verificationStatus =
      VStatus.pending ∧
    ¬((processIssue ⟨VStatus.pending, 2, true⟩
        ⟨false, RetryRead.row (some 2), true,
          some ⟨false, false, false⟩, true⟩).1.verificationStatus =
      VStatus.pendingManual) ∧
    (processIssue ⟨VStatus.pending, 2, true⟩
        ⟨false, RetryRead.row (some 2), true,
          some ⟨false, false, false⟩, true⟩).2.audits =
      [VStatus.processing, VStatus.pendingManual] ∧
    (processIssue ⟨VStatus.pending, 2, true⟩
        ⟨false, RetryRead.row (some 2), true,
          some ⟨false, false, false⟩, true⟩).2.statusWrites = [] := by
  decide

/-- C4 as amended: for a pending submission whose retry increment stays
below 3, a classifier verdict with is_genuine false and neither the
unsafe-content nor the screenshot flag set makes process_issue create
exactly one rejected record with reason not_genuine_civic_issue, one
penalty RPC call and one rejection notice; the audit trail records
processing and then rejected, the stored verification_status moves from
pending directly to rejected (processing is never written to the row),
and the only retry write is the single increment taken before the
verdict was received. -/
theorem not_genuine_rejection_flow (s : Submission) (env : WorkerEnv)
    (hst : s.verificationStatus = VStatus.pending)
    (hretry : s.retryCount + 1 < 3)
    (himg : s.hasImage = true)
    (hlock : env.lockHeld = false)
    (hread : env.retryRead = RetryRead.row (some s.retryCount))
    (hai : env.aiEnabled = true)
    (hcls : env.classifierResult = some ⟨false, false, false⟩)
    (hins : env.insertOk = true) :
    (processIssue s env).2.rejectedRecords =
      ["not_genuine_civic_issue"] ∧
    (processIssue s env).2.penaltyCalls = 1 ∧
    (processIssue s env).2.rejectionEmails = 1 ∧
    (processIssue s env).2.verifiedRecords = 0 ∧
    (processIssue s env).1.verificationStatus = VStatus.rejected ∧
    (processIssue s env).2.audits = [VStatus.processing, VStatus.rejected] ∧
    (processIssue s env).2.statusWrites = [VStatus.rejected] ∧
    (processIssue s env).2.retryWrites = [s.retryCount + 1] := by
  have hng : ¬(s.retryCount + 1 ≥ 3) := by omega
  simp [processIssue, hlock, hread, hai, hcls, himg, hins,
    incrementRetryCount, shouldReject, rejectionReason, hng, noEffects]

/-- Witness for C4 at a concrete submission and environment. -/
theorem not_genuine_rejection_flow_witness :
    (processIssue ⟨VStatus.pending, 0, true⟩
        ⟨false, RetryRead.row (some 0), true,
          some ⟨false, false, false⟩, true⟩).2.rejectedRecords =
      ["not_genuine_civic_issue"] ∧
    (processIssue ⟨VStatus.pending, 0, true⟩
        ⟨false, RetryRead.row (some 0), true,
          some ⟨false, false, false⟩, true⟩).2.penaltyCalls = 1 ∧
    (processIssue ⟨VStatus.pending, 0, true⟩
        ⟨false, RetryRead.row (some 0), true,
          some ⟨false, false, false⟩, true⟩).2.rejectionEmails = 1 ∧
    (processIssue ⟨VStatus.pending, 0, true⟩
        ⟨false, RetryRead.row (some 0), true,
          some ⟨false, false, false⟩, true⟩).2.verifiedRecords = 0 ∧
    (processIssue ⟨VStatus.pending, 0, true⟩
        ⟨false, RetryRead.row (some 0), true,
          some ⟨false, false, false⟩, true⟩).1.verificationStatus =
      VStatus.rejected ∧
    (processIssue ⟨VStatus.pending, 0, true⟩
        ⟨false, RetryRead.row (some 0), true,
          some ⟨false, false, false⟩, true⟩).2.audits =
      [VStatus.processing, VStatus.rejected] ∧
    (processIssue ⟨VStatus.pending, 0, true⟩
        ⟨false, RetryRead.row (some 0), true,
          some ⟨false, false, false⟩, true⟩).2.statusWrites =
      [VStatus.rejected] ∧
    (processIssue ⟨VStatus.pending, 0, true⟩
        ⟨false, RetryRead.row (some 0), true,
          some ⟨false, false, false⟩, true⟩).2.retryWrites = [0 + 1] :=
  not_genuine_rejection_flow ⟨VStatus.pending, 0, true⟩
    ⟨false, RetryRead.row (some 0), true, some ⟨false, false, false⟩,
      true⟩ rfl (by decide) rfl rfl rfl rfl rfl rfl

/-- C4 counterexample: on the not-genuine rejection path the stored
verification_status is written exactly once, directly to rejected; no
write ever sets it to processing, so the claimed stored-status
transition through processing does not happen. -/
theorem rejection_status_never_processing :
    (processIssue ⟨VStatus.pending, 0, true⟩
        ⟨false, RetryRead.row (some 0), true,
          some ⟨false, false, false⟩, true⟩).2.statusWrites =
      [VStatus.rejected] ∧
    VStatus.processing ∉
      (processIssue ⟨VStatus.pending, 0, true⟩
          ⟨false, RetryRead.row (some 0), true,
            some ⟨false, false, false⟩, true⟩).2.statusWrites := by
  decide

/-- C7: when every classifier attempt fails (the call yields no verdict)
and the retry increment stays below 3, process_issue leaves the stored
verification_status pending with no status write at all, records a
pending audit entry, creates no record and applies no compensating
action, and the submission remains selectable for a later automatic
pass. -/
theorem classifier_failure_leaves_pending (s : Submission)
    (env : WorkerEnv)
    (hst : s.verificationStatus = VStatus.pending)
    (hretry : s.retryCount + 1 < 3)
    (himg : s.hasImage = true)
    (hlock : env.lockHeld = false)
    (hread : env.retryRead = RetryRead.row (some s.retryCount))
    (hai : env.aiEnabled = true)
    (hcls : env.classifierResult = none) :
    (processIssue s env).1.verificationStatus = VStatus.pending ∧
    (processIssue s env).2.statusWrites = [] ∧
    (processIssue s env).2.audits = [VStatus.processing, VStatus.pending] ∧
    (processIssue s env).2.rejectedRecords = [] ∧
    (processIssue s env).2.verifiedRecords = 0 ∧
    (processIssue s env).2.penaltyCalls = 0 ∧
    (processIssue s env).2.pointsAwards = [] ∧
    selectable (processIssue s env).1 = true := by
  have hng : ¬(s.retryCount + 1 ≥ 3) := by omega
  refine ⟨?_, ?_, ?_, ?_, ?_, ?_, ?_, ?_⟩ <;>
    simp [processIssue, hlock, hread, hai, hcls, himg,
      incrementRetryCount, hng, noEffects, selectable, hst] <;>
    omega

/-- Witness for C7 at a concrete submission and environment. -/
theorem classifier_failure_leaves_pending_witness :
    (processIssue ⟨VStatus.pending, 1, true⟩
        ⟨false, RetryRead.row (some 1), true, none,
          true⟩).1.verificationStatus = VStatus.pending ∧
    (processIssue ⟨VStatus.pending, 1, true⟩
        ⟨false, RetryRead.row (some 1), true, none,
          true⟩).2.statusWrites = [] ∧
    (processIssue ⟨VStatus.pending, 1, true⟩
        ⟨false, RetryRead.row (some 1), true, none, true⟩).2.audits =
      [VStatus.processing, VStatus.pending] ∧
    (processIssue ⟨VStatus.pending, 1, true⟩
        ⟨false, RetryRead.row (some 1), true, none,
          true⟩).2.rejectedRecords = [] ∧
    (processIssue ⟨VStatus.pending, 1, true⟩
        ⟨false, RetryRead.row (some 1), true, none,
          true⟩).2.verifiedRecords = 0 ∧
    (processIssue ⟨VStatus.pending, 1, true⟩
        ⟨false, RetryRead.row (some 1), true, none,
          true⟩).2.penaltyCalls = 0 ∧
    (processIssue ⟨VStatus.pending, 1, true⟩
        ⟨false, RetryRead.row (some 1), true, none,
          true⟩).2.pointsAwards = [] ∧
    selectable (processIssue ⟨VStatus.pending, 1, true⟩
        ⟨false, RetryRead.row (some 1), true, none, true⟩).1 = true :=
  classifier_failure_leaves_pending ⟨VStatus.pending, 1, true⟩
    ⟨false, RetryRead.row (some 1), true, none, true⟩
    rfl (by decide) rfl rfl rfl rfl rfl

/-- C10: when the retry-count read throws or finds no row,
increment_retry_count returns 0 and writes nothing, the max-retry guard
(new count at least 3) cannot fire, and process_issue runs the full
pipeline as a first attempt regardless of the stored retry count: no
pending_manual audit entry is written and a verdict is processed to
completion. -/
theorem retry_guard_skipped_on_read_failure (rr : RetryRead)
    (hrr : rr = RetryRead.dbError ∨ rr = RetryRead.rowMissing)
    (s : Submission) (env : WorkerEnv)
    (hlock : env.lockHeld = false)
    (hread : env.retryRead = rr)
    (hai : env.aiEnabled = true)
    (himg : s.hasImage = true)
    (hcls : env.classifierResult = some ⟨false, false, false⟩)
    (hins : env.insertOk = true) :
    incrementRetryCount rr = (0, none) ∧
    ¬((incrementRetryCount rr).1 ≥ 3) ∧
    (processIssue s env).2.retryWrites = [] ∧
    VStatus.pendingManual ∉ (processIssue s env).2.audits ∧
    (processIssue s env).2.rejectedRecords =
      ["not_genuine_civic_issue"] ∧
    (processIssue s env).1.retryCount = s.retryCount := by
  have hinc : incrementRetryCount rr = (0, none) := by
    rcases hrr with h | h <;> simp [h, incrementRetryCount]
  refine ⟨hinc, by simp [hinc], ?_, ?_, ?_, ?_⟩ <;>
    simp [processIssue, hlock, hread, hinc, hai, himg, hcls, hins,
      shouldReject, rejectionReason, noEffects]

/-- Witness for C10 at a submission whose stored retry count already
exceeds the cap and a throwing retry-count read. -/
theorem retry_guard_skipped_on_read_failure_witness :
    incrementRetryCount RetryRead.dbError = (0, none) ∧
    ¬((incrementRetryCount RetryRead.dbError).1 ≥ 3) ∧
    (processIssue ⟨VStatus.pending, 5, true⟩
        ⟨false, RetryRead.dbError, true, some ⟨false, false, false⟩,
          true⟩).2.retryWrites = [] ∧
    VStatus.pendingManual ∉
      (processIssue ⟨VStatus.pending, 5, true⟩
          ⟨false, RetryRead.dbError, true, some ⟨false, false, false⟩,
            true⟩).2.audits ∧
    (processIssue ⟨VStatus.pending, 5, true⟩
        ⟨false, RetryRead.dbError, true, some ⟨false, false, false⟩,
          true⟩).2.rejectedRecords = ["not_genuine_civic_issue"] ∧
    (processIssue ⟨VStatus.pending, 5, true⟩
        ⟨false, RetryRead.dbError, true, some ⟨false, false, false⟩,
          true⟩).1.retryCount = 5 :=
  retry_guard_skipped_on_read_failure RetryRead.dbError (Or.inl rfl)
    ⟨VStatus.pending, 5, true⟩
    ⟨false, RetryRead.dbError, true, some ⟨false, false, false⟩, true⟩
    rfl rfl rfl rfl rfl rfl

/-- Helper: the concurrency invariant is symmetric in the two
coroutines. -/
lemma CInv_symm (sh : CShared) (p q : PassLocal) (h : CInv sh p q) :
    CInv sh q p := by
  obtain ⟨hp, hq, h1, h2, h3, h4, h5, h6⟩ := h
  exact ⟨hq, hp, by omega, by omega, by omega, by omega,
    fun hc => h5 ⟨hc.2, hc.1⟩, fun hc => h6 ⟨hc.2, hc.1⟩⟩

/-- Helper: a coroutine that has not yet reached its release step has
applied no compensating action. -/
lemma pass_flags_clear (p : PassLocal)
    (hp3 : p.didPenalty = true → p.pc = CPc.release ∨ p.pc = CPc.halt)
    (hp4 : p.didReward = true → p.pc = CPc.release ∨ p.pc = CPc.halt)
    (hne1 : p.pc ≠ CPc.release) (hne2 : p.pc ≠ CPc.halt) :
    p.didPenalty = false ∧ p.didReward = false := by
  constructor
  · rcases Bool.eq_false_or_eq_true p.didPenalty with h | h
    · rcases hp3 h with h2 | h2
      · exact absurd h2 hne1
      · exact absurd h2 hne2
    · exact h
  · rcases Bool.eq_false_or_eq_true p.didReward with h | h
    · rcases hp4 h with h2 | h2
      · exact absurd h2 hne1
      · exact absurd h2 hne2
    · exact h

/-- Helper: one atomic step of either coroutine preserves the
concurrency invariant. -/
lemma passStep_inv (sh : CShared) (p q : PassLocal) (h : CInv sh p q) :
    CInv (passStep sh p).1 (passStep sh p).2 q := by
  obtain ⟨⟨hp1, hp2, hp3, hp4⟩, hq, hrej, hver, hpen, hrew, hone, htwo⟩ := h
  cases hpc : p.pc with
  | entry =>
      obtain ⟨hdp, hdr⟩ :=
        pass_flags_clear p hp3 hp4 (by simp [hpc]) (by simp [hpc])
      simp only [passStep, hpc]
      split <;>
        exact ⟨⟨by simp [hdp], by simp [hdr], by simp [hdp],
          by simp [hdr]⟩, hq, by simpa using hrej, by simpa using hver,
          by simpa using hpen, by simpa using hrew, by simpa using hone,
          by simpa using htwo⟩
  | readRetry =>
      obtain ⟨hdp, hdr⟩ :=
        pass_flags_clear p hp3 hp4 (by simp [hpc]) (by simp [hpc])
      simp only [passStep, hpc]
      exact ⟨⟨by simp [hdp], by simp [hdr], by simp [hdp],
        by simp [hdr]⟩, hq, by simpa using hrej, by simpa using hver,
        by simpa using hpen, by simpa using hrew, by simpa using hone,
        by simpa using htwo⟩
  | writeRetry =>
      obtain ⟨hdp, hdr⟩ :=
        pass_flags_clear p hp3 hp4 (by simp [hpc]) (by simp [hpc])
      simp only [passStep, hpc]
      exact ⟨⟨by simp [hdp], by simp [hdr], by simp [hdp],
        by simp [hdr]⟩, hq, by simpa using hrej, by simpa using hver,
        by simpa using hpen, by simpa using hrew, by simpa using hone,
        by simpa using htwo⟩
  | classify =>
      obtain ⟨hdp, hdr⟩ :=
        pass_flags_clear p hp3 hp4 (by simp [hpc]) (by simp [hpc])
      simp only [passStep, hpc]
      cases hv : p.verdict <;>
        exact ⟨⟨by simp [hdp], by simp [hdr], by simp [hdp],
          by simp [hdr]⟩, hq, by simpa using hrej, by simpa using hver,
          by simpa using hpen, by simpa using hrew, by simpa using hone,
          by simpa using htwo⟩
  | insertRec =>
      obtain ⟨hdp, hdr⟩ :=
        pass_flags_clear p hp3 hp4 (by simp [hpc]) (by simp [hpc])
      simp only [passStep, hpc]
      cases hv : p.verdict with
      | none =>
          exact ⟨⟨by simp [hdp], by simp [hdr], by simp [hdp],
            by simp [hdr]⟩, hq, by simpa using hrej, by simpa using hver,
            by simpa using hpen, by simpa using hrew,
            by simpa using hone, by simpa using htwo⟩
      | some v =>
          dsimp only
          split_ifs with hsr hz hz
          · -- keyed insert into the rejected table succeeds
            have hqg : q.gotRej = false := by
              rcases Bool.eq_false_or_eq_true q.gotRej with h | h
              · rw [hz, h] at hrej
                cases hpg : p.gotRej <;> rw [hpg] at hrej <;>
                  simp at hrej
              · exact h
            refine ⟨⟨by simp [hdp], by simp [hdr], by simp [hdp],
              by simp [hdr]⟩, hq, ?_, by simpa using hver,
              by simpa using hpen, by simpa using hrew, ?_,
              by simpa using htwo⟩
            · simp only [hz, hqg]
              simp
            · simp [hqg]
          · -- rejected record already present: no insert, no flag
            exact ⟨⟨by simp [hdp], by simp [hdr], by simp [hdp],
              by simp [hdr]⟩, hq, by simpa using hrej,
              by simpa using hver, by simpa using hpen,
              by simpa using hrew, by simpa using hone,
              by simpa using htwo⟩
          · -- keyed insert into the verified table succeeds
            have hqg : q.gotVer = false := by
              rcases Bool.eq_false_or_eq_true q.gotVer with h | h
              · rw [hz, h] at hver
                cases hpg : p.gotVer <;> rw [hpg] at hver <;>
                  simp at hver
              · exact h
            refine ⟨⟨by simp [hdp], by simp [hdr], by simp [hdp],
              by simp [hdr]⟩, hq, by simpa using hrej, ?_,
              by simpa using hpen, by simpa using hrew,
              by simpa using hone, ?_⟩
            · simp only [hz, hqg]
              simp
            · simp [hqg]
          · -- verified record already present: no insert, no flag
            exact ⟨⟨by simp [hdp], by simp [hdr], by simp [hdp],
              by simp [hdr]⟩, hq, by simpa using hrej,
              by simpa using hver, by simpa using hpen,
              by simpa using hrew, by simpa using hone,
              by simpa using htwo⟩
  | markStatus =>
      obtain ⟨hdp, hdr⟩ :=
        pass_flags_clear p hp3 hp4 (by simp [hpc]) (by simp [hpc])
      simp only [passStep, hpc]
      split_ifs <;>
        exact ⟨⟨by simp [hdp], by simp [hdr], by simp [hdp],
          by simp [hdr]⟩, hq, by simpa using hrej, by simpa using hver,
          by simpa using hpen, by simpa using hrew, by simpa using hone,
          by simpa using htwo⟩
  | compensate =>
      obtain ⟨hdp, hdr⟩ :=
        pass_flags_clear p hp3 hp4 (by simp [hpc]) (by simp [hpc])
      simp only [passStep, hpc]
      split_ifs with hgr hgv
      · -- apply the penalty once
        refine ⟨⟨by simp [hgr], by simp [hdr], by simp, by simp [hdr]⟩,
          hq, by simpa using hrej, by simpa using hver, ?_,
          by simpa using hrew, by simpa using hone, by simpa using htwo⟩
        rw [hpen, hdp]
        simp
        omega
      · -- award the points once
        refine ⟨⟨by simp [hdp], by simp [hgv], by simp [hdp], by simp⟩,
          hq, by simpa using hrej, by simpa using hver,
          by simpa using hpen, ?_, by simpa using hone,
          by simpa using htwo⟩
        rw [hrew, hdr]
        simp
        omega
      · exact ⟨⟨by simp [hdp], by simp [hdr], by simp [hdp],
          by simp [hdr]⟩, hq, by simpa using hrej, by simpa using hver,
          by simpa using hpen, by simpa using hrew, by simpa using hone,
          by simpa using htwo⟩
  | release =>
      simp only [passStep, hpc]
      split <;>
        exact ⟨⟨by simpa using hp1, by simpa using hp2, by simp,
          by simp⟩, hq, by simpa using hrej, by simpa using hver,
          by simpa using hpen, by simpa using hrew, by simpa using hone,
          by simpa using htwo⟩
  | halt =>
      simp only [passStep, hpc]
      exact ⟨⟨hp1, hp2, hp3, hp4⟩, hq, hrej, hver, hpen, hrew, hone,
        htwo⟩

/-- Helper: a scheduled step of the two-coroutine system preserves the
concurrency invariant. -/
lemma systemStep_inv (st : CState) (w : Bool)
    (h : CInv st.shared st.a st.b) :
    CInv (systemStep st w).shared (systemStep st w).a
      (systemStep st w).b := by
  cases w
  · simpa [systemStep] using
      CInv_symm _ _ _ (passStep_inv st.shared st.b st.a
        (CInv_symm _ _ _ h))
  · simpa [systemStep] using passStep_inv st.shared st.a st.b h

/-- Helper: the concurrency invariant holds after any schedule. -/
lemma runSched_inv (st : CState) (ws : List Bool)
    (h : CInv st.shared st.a st.b) :
    CInv (runSched st ws).shared (runSched st ws).a
      (runSched st ws).b := by
  induction ws generalizing st with
  | nil => exact h
  | cons w ws ih => exact ih (systemStep st w) (systemStep_inv st w h)

/-- Helper: the initial state of two fresh passes satisfies the
concurrency invariant. -/
lemma CInv_init (retry0 : Nat) (va vb : Option AIVerdict) :
    CInv (doubleProcState retry0 va vb).shared
      (doubleProcState retry0 va vb).a (doubleProcState retry0 va vb).b := by
  refine ⟨⟨?_, ?_, ?_, ?_⟩, ⟨?_, ?_, ?_, ?_⟩, ?_, ?_, ?_, ?_, ?_, ?_⟩ <;>
    simp [doubleProcState, freshShared, freshPass]

/-- C9 as amended: for any two concurrent passes over the same pending
submission, under every interleaving, at most one rejected record and at
most one penalty, and at most one verified record and at most one
reward, are applied — per outcome kind, bounded by the keyed record
insert and the per-coroutine once-only compensation; compensations never
exceed the records of their kind.  (The original total exactly-once
claim fails: a stale second pass running after the first released the
in-memory lock can still create the record of the other kind.) -/
theorem concurrent_passes_effect_bounds (retry0 : Nat)
    (va vb : Option AIVerdict) (sched : List Bool) :
    (runSched (doubleProcState retry0 va vb) sched).shared.rejRecords ≤ 1 ∧
    (runSched (doubleProcState retry0 va vb) sched).shared.verRecords ≤ 1 ∧
    (runSched (doubleProcState retry0 va vb) sched).shared.penalties ≤ 1 ∧
    (runSched (doubleProcState retry0 va vb) sched).shared.rewards ≤ 1 ∧
    (runSched (doubleProcState retry0 va vb) sched).shared.penalties ≤
      (runSched (doubleProcState retry0 va vb) sched).shared.rejRecords ∧
    (runSched (doubleProcState retry0 va vb) sched).shared.rewards ≤
      (runSched (doubleProcState retry0 va vb) sched).shared.verRecords := by
  have h := runSched_inv (doubleProcState retry0 va vb) sched
    (CInv_init retry0 va vb)
  set st := runSched (doubleProcState retry0 va vb) sched
  obtain ⟨⟨hap, har, _, _⟩, ⟨hbp, hbr, _, _⟩, hrej, hver, hpen, hrew,
    hone, htwo⟩ := h
  cases h1 : st.a.gotRej <;> cases h2 : st.b.gotRej <;>
    cases h3 : st.a.gotVer <;> cases h4 : st.b.gotVer <;>
    cases h5 : st.a.didPenalty <;> cases h6 : st.b.didPenalty <;>
    cases h7 : st.a.didReward <;> cases h8 : st.b.didReward <;>
    simp_all

/-- C9 counterexample: with the first pass seeing a not-genuine verdict
and a stale second pass (spawned on the same pending selection) seeing a
genuine verdict, the schedule that runs the first pass to completion and
then the second produces one rejected record, one verified record, one
penalty and one reward — two records and two compensating actions in
total, not the exactly-once total the claim states. -/
theorem concurrent_double_processing_two_records :
    (runSched (doubleProcState 0 (some ⟨false, false, false⟩)
        (some ⟨true, false, false⟩))
      (List.replicate 10 true ++
        List.replicate 10 false)).shared.rejRecords = 1 ∧
    (runSched (doubleProcState 0 (some ⟨false, false, false⟩)
        (some ⟨true, false, false⟩))
      (List.replicate 10 true ++
        List.replicate 10 false)).shared.verRecords = 1 ∧
    (runSched (doubleProcState 0 (some ⟨false, false, false⟩)
        (some ⟨true, false, false⟩))
      (List.replicate 10 true ++
        List.replicate 10 false)).shared.penalties = 1 ∧
    (runSched (doubleProcState 0 (some ⟨false, false, false⟩)
        (some ⟨true, false, false⟩))
      (List.replicate 10 true ++
        List.replicate 10 false)).shared.rewards = 1 ∧
    ¬((runSched (doubleProcState 0 (some ⟨false, false, false⟩)
          (some ⟨true, false, false⟩))
        (List.replicate 10 true ++
          List.replicate 10 false)).shared.rejRecords +
      (runSched (doubleProcState 0 (some ⟨false, false, false⟩)
          (some ⟨true, false, false⟩))
        (List.replicate 10 true ++
          List.replicate 10 false)).shared.verRecords = 1) := by
  decide

end FailState
